import Mathlib

/-!
Shallow embedding of the personal-library catalog manager (`main.py`).

The program keeps an in-memory list of `Book` records together with a JSON
store file.  Pure record manipulation is translated to Lean functions; the
file system is modelled by an explicit `JsonFile` value threaded through the
operations; printed messages are modelled by an `Outcome` value returned next
to the new state.  Fresh UUID generation (`str(uuid.uuid4())`) is modelled by
an explicit generator `gen : Nat → String` (one fresh string per call site,
indexed by the number of previous calls) or by a single `fresh : String`
argument where one fresh value is needed.
-/

/-- A book record.  Mirrors the attributes set by `Book.__init__`
(`self.id`, `self.title`, `self.author`, `self.year`, `self.status`). -/
structure Book where
  id : String
  title : String
  author : String
  year : Int
  status : String
deriving DecidableEq

/-- One serialized record object inside the JSON store: the keyword
arguments passed to `Book(**book_data)` on load.  `title`, `author`, `year`
are required keyword arguments; `id` and `status` are optional (default
`None` resp. `"в наличии"`), so a row may omit them. -/
structure BookRow where
  id : Option String
  title : String
  author : String
  year : Int
  status : Option String
deriving DecidableEq

/-- `Book.__init__(title, author, year, id=None, status="в наличии")`.
`self.id = id or str(uuid.uuid4())`: Python truthiness means a fresh
identifier (`fresh`) is used both when `id` is `None` and when it is the
empty string `""` (the only falsy `str`). -/
def mkBook (fresh : String) (title : String) (author : String) (year : Int)
    (id : Option String) (status : Option String) : Book :=
  ⟨match id with
    | none => fresh
    | some s => if s = "" then fresh else s,
   title, author, year, status.getD "в наличии"⟩

/-- Contents of the store file at `Library.filename`, abstracted to the level
the program observes:
* `missing`  — no file at the path (`open` raises `FileNotFoundError`);
* `invalid`  — file exists but its text is not valid JSON
  (`json.load` raises `json.JSONDecodeError`; an empty file is this case);
* `array rows` — the text parses as a JSON array of objects, each with the
  keyword arguments `Book(**row)` accepts (`title`, `author`, `year`
  present, optionally `id` and `status`);
* `emptyNonArray` — the text parses as JSON to an empty non-array iterable:
  the empty object (text `\x7b\x7d`, a dict whose key iteration yields
  nothing) or the empty string (text `""`); the comprehension
  `[Book(**book_data) for book_data in data]` then runs zero iterations and
  `load_books` silently returns the empty list, exactly as for an array of
  zero rows;
* `other`    — the text parses as JSON to anything else that is not an
  array of valid record objects: a non-iterable value (number, boolean,
  `null`, where the `for` itself raises), a non-empty object or string
  (iteration yields keys resp. characters, which are not mappings), or an
  array with an entry `Book(**book_data)` rejects (a non-object entry, or
  an object with missing or unexpected keys).  In every such case
  `Book(**book_data)` or the iteration raises `TypeError` at the first bad
  element, which `load_books` does not catch. -/
inductive JsonFile
  | missing
  | invalid
  | array (rows : List BookRow)
  | emptyNonArray
  | other
deriving DecidableEq

/-- The uncaught exception escaping `load_books` in the `JsonFile.other`
case (`TypeError` from `Book(**book_data)`). -/
inductive LoadError
  | typeError
deriving DecidableEq

/-- `vars(book)` as written by `json.dump` in `save_books`: all five fields
are always present. -/
def rowOfBook (b : Book) : BookRow :=
  ⟨some b.id, b.title, b.author, b.year, some b.status⟩

/-- `Library.save_books`: serializes the full current book list to the store
file, fully overwriting prior contents. -/
def save_books (books : List Book) : JsonFile :=
  JsonFile.array (books.map rowOfBook)

/-- The list comprehension `[Book(**book_data) for book_data in data]`:
one `Book` per row, with a fresh identifier drawn per constructor call
(used only when the row's `id` is absent or empty). -/
def loadRows (gen : Nat → String) (i : Nat) : List BookRow → List Book
  | [] => []
  | r :: rs => mkBook (gen i) r.title r.author r.year r.id r.status
      :: loadRows gen (i + 1) rs

/-- `Library.load_books`: returns the parsed book list; returns `[]` when
the file is missing or its text is not valid JSON (the two caught
exceptions) and likewise when the JSON is an empty non-array iterable (the
zero-iteration comprehension); propagates `TypeError` when the JSON yields
an element the `Book` constructor rejects. -/
def load_books (gen : Nat → String) : JsonFile → Except LoadError (List Book)
  | JsonFile.missing => Except.ok []
  | JsonFile.invalid => Except.ok []
  | JsonFile.array rows => Except.ok (loadRows gen 0 rows)
  | JsonFile.emptyNonArray => Except.ok []
  | JsonFile.other => Except.error LoadError.typeError

/-- In-memory library state: `self.books` plus the store file backing it. -/
structure LibState where
  books : List Book
  store : JsonFile
deriving DecidableEq

/-- `Library.__init__`: records the path and loads the book list from the
store.  Reading only: the store component of the resulting state is the
store that was passed in. -/
def libraryInit (gen : Nat → String) (store : JsonFile) :
    Except LoadError LibState :=
  match load_books gen store with
  | Except.ok bs => Except.ok ⟨bs, store⟩
  | Except.error e => Except.error e

/-- The printed messages of the operations, as an abstract outcome value. -/
inductive Outcome
  | added (title : String)
  | removed (id : String)
  | removeNotFound (id : String)
  | foundBooks (books : List Book)
  | noMatches
  | invalidIdFormat
  | invalidStatus
  | statusUpdated (title : String) (status : String)
  | updateNotFound
deriving DecidableEq

/-- `Library.add_book`: constructs `Book(title, author, year)` with a fresh
identifier and default status, appends it, saves, reports success. -/
def add_book (fresh : String) (title : String) (author : String) (year : Int)
    (s : LibState) : LibState × Outcome :=
  let b := mkBook fresh title author year none none
  let books2 := s.books ++ [b]
  (⟨books2, save_books books2⟩, Outcome.added title)

/-- The `for book in self.books` loop of `remove_book`: find the first book
with `str(book.id) == book_id` (`book.id` is already a `str`, so `str` is
the identity) and drop it (`self.books.remove(book)` removes the first
element equal to the found object, i.e. that same first match); `none` when
no book matches. -/
def removeScan (book_id : String) : List Book → Option (List Book)
  | [] => none
  | b :: bs =>
    if b.id = book_id then some bs
    else match removeScan book_id bs with
      | none => none
      | some bs2 => some (b :: bs2)

/-- `Library.remove_book`: on first match removes it and saves; otherwise
reports "not found" without touching the list or the store. -/
def remove_book (book_id : String) (s : LibState) : LibState × Outcome :=
  match removeScan book_id s.books with
  | some books2 => (⟨books2, save_books books2⟩, Outcome.removed book_id)
  | none => (s, Outcome.removeNotFound book_id)

/-- `leadsChars p l` holds when `p` is an initial segment of `l`
(Python `l.startswith(p)` on character lists). -/
def leadsChars : List Char → List Char → Bool
  | [], _ => true
  | _ :: _, [] => false
  | a :: as, b :: bs => a == b && leadsChars as bs

/-- `containsChars needle hay`: Python's substring test `needle in hay`,
character-list level. -/
def containsChars (needle : List Char) : List Char → Bool
  | [] => needle.isEmpty
  | c :: t => leadsChars needle (c :: t) || containsChars needle t

/-- The predicate of the list comprehension in `find_book`:
`query.lower() in book.title.lower() or query.lower() in book.author.lower()
or query == str(book.year)`.  The standard-library function `str.lower()` is
taken as a parameter `low` on character lists, the same way UUID generation
is a parameter: Python's lowering is the full Unicode case mapping (whole
tables plus the final-sigma context rule), which a hand-written table cannot
reproduce, so the results about `find_book` are proved for every `low` and
hold in particular at the real one. -/
def matchesQueryLow (low : List Char → List Char) (query : String)
    (b : Book) : Bool :=
  containsChars (low query.data) (low b.title.data)
  || containsChars (low query.data) (low b.author.data)
  || query == toString b.year

/-- `Library.find_book` with the case map as a parameter: the filtered list
`found_books`, together with the printed outcome (the found books, or "no
matches" when the list is empty). -/
def find_bookLow (low : List Char → List Char) (query : String)
    (books : List Book) : List Book × Outcome :=
  let found := books.filter (fun b => matchesQueryLow low query b)
  if found.isEmpty then (found, Outcome.noMatches)
  else (found, Outcome.foundBooks found)

/-- The simple character-wise lower-case map.  It agrees with `str.lower()`
on the ASCII range only; it is used solely to instantiate the generic
matching results in claims whose truth is uniform in the case map (a title
matches itself, the empty query matches everything under any `low`). -/
def simpleLower (l : List Char) : List Char :=
  l.map Char.toLower

/-- `lowerStr s`: `simpleLower` on a string's characters. -/
def lowerStr (s : String) : List Char :=
  simpleLower s.data

/-- `matchesQueryLow` at the simple case map. -/
def matchesQuery (query : String) (b : Book) : Bool :=
  matchesQueryLow simpleLower query b

/-- `find_bookLow` at the simple case map. -/
def find_book (query : String) (books : List Book) : List Book × Outcome :=
  find_bookLow simpleLower query books

/-- `s.replace(pat, '')` for a non-empty pattern `p :: ps`: deletes
left-to-right non-overlapping occurrences.  The fuel argument is consumed
once per produced or skipped character, so `l.length` fuel (as supplied by
`deleteOccs`) always suffices; fuel makes the recursion structural. -/
def deleteOccsAux (p : Char) (ps : List Char) : Nat → List Char → List Char
  | 0, _ => []
  | _, [] => []
  | fuel + 1, c :: t =>
    if leadsChars (p :: ps) (c :: t) then
      deleteOccsAux p ps fuel (t.drop ps.length)
    else
      c :: deleteOccsAux p ps fuel t

/-- `s.replace(String.mk (p :: ps), '')`. -/
def deleteOccs (p : Char) (ps : List Char) (l : List Char) : List Char :=
  deleteOccsAux p ps l.length l

/-- Characters stripped by `.strip('\x7b\x7d')`. -/
def isBraceChar (c : Char) : Bool :=
  c == '{' || c == '}'

/-- Python `.strip('\x7b\x7d')`: drop brace characters from both ends. -/
def stripEnds (l : List Char) : List Char :=
  ((l.dropWhile isBraceChar).reverse.dropWhile isBraceChar).reverse

/-- Value of one hexadecimal digit, `none` for a non-hex character. -/
def hexDigitVal (c : Char) : Option Nat :=
  let n := c.toNat
  if 48 ≤ n ∧ n ≤ 57 then some (n - 48)
  else if 97 ≤ n ∧ n ≤ 102 then some (n - 87)
  else if 65 ≤ n ∧ n ≤ 70 then some (n - 55)
  else none

/-- `int(hex, 16)` on a digit list, accumulating left to right; `none` when a
character is not a hexadecimal digit (`ValueError`).  Python's `int` also
tolerates a sign, surrounding whitespace, a `0x` prefix and underscore
separators inside the 32-character payload; those exotic well-formed inputs
are not modelled, and no claim depends on them. -/
def hexAcc (acc : Nat) : List Char → Option Nat
  | [] => some acc
  | c :: t =>
    match hexDigitVal c with
    | none => none
    | some d => hexAcc (16 * acc + d) t

/-- `uuid.UUID(book_id)` as called by `update_status`, following the
standard-library constructor: delete `urn:` and `uuid:` occurrences, strip
surrounding braces, delete hyphens, require exactly 32 characters, read them
as a hexadecimal integer.  `none` models the `ValueError` that
`update_status` catches. -/
def parseUUID (s : String) : Option Nat :=
  let h1 := deleteOccs 'u' ['r', 'n', ':'] s.data
  let h2 := deleteOccs 'u' ['u', 'i', 'd', ':'] h1
  let h3 := stripEnds h2
  let h4 := deleteOccs '-' [] h3
  if h4.length = 32 then hexAcc 0 h4 else none

/-- The comparison `book.id == book_id_uuid` in `update_status`: `book.id`
is a Python `str` while `book_id_uuid` is a `uuid.UUID`.  `str.__eq__` and
`UUID.__eq__` each return `NotImplemented` for the other's type, so `==`
falls back to object identity of distinct objects and is `False` for every
pair of arguments. -/
def strEqUUID (_s : String) (_u : Nat) : Bool :=
  false

/-- The `for book in self.books` loop of `update_status`: on the first book
with `book.id == book_id_uuid` set its status and stop, returning the new
list and the matched title; `none` when the loop falls through. -/
def updateScan (u : Nat) (newStatus : String) :
    List Book → Option (List Book × String)
  | [] => none
  | b :: bs =>
    if strEqUUID b.id u then
      some (⟨b.id, b.title, b.author, b.year, newStatus⟩ :: bs, b.title)
    else match updateScan u newStatus bs with
      | none => none
      | some (bs2, t) => some (b :: bs2, t)

/-- `Library.update_status`: validate the identifier format first
(`uuid.UUID(book_id)`, `ValueError` → "invalid id format"), then the status
value (allowed set is "в наличии" / "выдана"), then scan; a successful scan
saves and reports success, a fallen-through scan reports "not found". -/
def update_status (book_id : String) (newStatus : String) (s : LibState) :
    LibState × Outcome :=
  match parseUUID book_id with
  | none => (s, Outcome.invalidIdFormat)
  | some u =>
    if newStatus = "в наличии" ∨ newStatus = "выдана" then
      match updateScan u newStatus s.books with
      | some (books2, _t) =>
          (⟨books2, save_books books2⟩,
           Outcome.statusUpdated _t newStatus)
      | none => (s, Outcome.updateNotFound)
    else (s, Outcome.invalidStatus)

/-! ### Helper lemmas -/

theorem leadsChars_refl (l : List Char) : leadsChars l l = true := by
  induction l with
  | nil => rfl
  | cons c t ih => simp [leadsChars, ih]

theorem containsChars_nil_left (l : List Char) : containsChars [] l = true := by
  cases l <;> simp [containsChars, leadsChars, List.isEmpty]

theorem containsChars_self (l : List Char) : containsChars l l = true := by
  cases l with
  | nil => rfl
  | cons c t => simp [containsChars, leadsChars_refl]

theorem matchesQuery_empty (b : Book) : matchesQuery "" b = true := by
  have h : simpleLower (String.data "") = [] := rfl
  simp [matchesQuery, matchesQueryLow, h, containsChars_nil_left]

theorem matchesQuery_title (b : Book) (q : String) (h : b.title = q) :
    matchesQuery q b = true := by
  simp [matchesQuery, matchesQueryLow, h, containsChars_self]

theorem find_bookLow_fst (low : List Char → List Char) (query : String)
    (books : List Book) :
    (find_bookLow low query books).1
      = books.filter (fun b => matchesQueryLow low query b) := by
  cases h : (books.filter (fun b => matchesQueryLow low query b)).isEmpty <;>
    simp [find_bookLow, h]

theorem find_bookLow_snd (low : List Char → List Char) (query : String)
    (books : List Book) :
    (find_bookLow low query books).2 = Outcome.noMatches ↔
      (find_bookLow low query books).1 = [] := by
  unfold find_bookLow
  by_cases h : books.filter (fun b => matchesQueryLow low query b) = []
  · simp [h]
  · have h2 : (books.filter (fun b => matchesQueryLow low query b)).isEmpty
        = false := by
      cases hc : books.filter (fun b => matchesQueryLow low query b) with
      | nil => exact absurd hc h
      | cons x xs => rfl
    simp [h2, h]

theorem find_book_fst (query : String) (books : List Book) :
    (find_book query books).1 = books.filter (fun b => matchesQuery query b) :=
  find_bookLow_fst simpleLower query books

theorem find_book_snd (query : String) (books : List Book) :
    (find_book query books).2 = Outcome.noMatches ↔
      (find_book query books).1 = [] :=
  find_bookLow_snd simpleLower query books

/-! ### Claims about Find -/

/-- Claim C5: for every case map `low` — in particular Python's real
`str.lower()`, which the embedding keeps as a parameter — `find_book`
returns exactly the records whose lowered title or lowered author contains
the lowered query as a substring or whose year's decimal rendering equals
the query, in the catalog's original order (a sublist of the input), and
reports "no matches" exactly when the result list is empty. -/
theorem find_book_spec (low : List Char → List Char) (query : String)
    (books : List Book) :
    List.Sublist (find_bookLow low query books).1 books
    ∧ (∀ b, b ∈ (find_bookLow low query books).1 ↔
        b ∈ books ∧ matchesQueryLow low query b = true)
    ∧ ((find_bookLow low query books).2 = Outcome.noMatches ↔
        (find_bookLow low query books).1 = []) := by
  refine ⟨?_, ?_, ?_⟩
  · rw [find_bookLow_fst]
    exact List.filter_sublist books
  · intro b
    rw [find_bookLow_fst]
    simp [List.mem_filter]
  · exact find_bookLow_snd low query books

/-- Claim C9: the empty query matches every record (the empty string is a
substring of every title), so `find_book ""` returns the whole catalog in
order and reports "no matches" exactly when the catalog is empty. -/
theorem find_empty_query_returns_all (books : List Book) :
    (find_book "" books).1 = books
    ∧ ((find_book "" books).2 = Outcome.noMatches ↔ books = []) := by
  have hall : (find_book "" books).1 = books := by
    rw [find_book_fst]
    exact List.filter_eq_self.mpr (fun b _ => matchesQuery_empty b)
  refine ⟨hall, ?_⟩
  rw [find_book_snd, hall]

/-! ### Claims about Load -/

/-- Claim C4 (counterexample): a store whose text is valid JSON but yields
an element the `Book` constructor rejects — e.g. the text `[1]`, an array
whose entry is not an object — makes `load_books` raise an uncaught
`TypeError` instead of returning the empty list, so the load error is
visible to the caller. -/
theorem load_wrong_shape_raises :
    load_books (fun _ => "") JsonFile.other
    = Except.error LoadError.typeError := rfl

/-- Claim C4 (amended): `load_books` silently recovers to the empty list
when the file is missing (`FileNotFoundError`), when its contents are not
syntactically valid JSON (`JSONDecodeError`, including an empty file), and
also when the JSON is an empty non-array iterable (the texts `\x7b\x7d` and
`""`, over which the comprehension runs zero iterations); a file whose JSON
yields at least one element the `Book` constructor rejects instead raises
an error that the caller sees. -/
theorem load_recovers_empty (gen : Nat → String) :
    load_books gen JsonFile.missing = Except.ok []
    ∧ load_books gen JsonFile.invalid = Except.ok []
    ∧ load_books gen JsonFile.emptyNonArray = Except.ok [] :=
  ⟨rfl, rfl, rfl⟩

/-! ### Save/Load round trip -/

theorem loadRows_rowOfBook (gen : Nat → String) (books : List Book)
    (h : ∀ b ∈ books, b.id ≠ "") :
    ∀ i, loadRows gen i (books.map rowOfBook) = books := by
  induction books with
  | nil => intro i; rfl
  | cons b bs ih =>
    intro i
    have hb : b.id ≠ "" := h b (by simp)
    have ht := ih (fun x hx => h x (by simp [hx])) (i + 1)
    cases b with
    | mk idf t a y st =>
      simp only [List.map_cons, loadRows, rowOfBook, mkBook] at *
      simp [ht, if_neg hb]

/-- Claim C2: saving a book list and loading it back reproduces the same
ordered list, field for field.  The hypothesis that every stored `id` is
non-empty reflects the record invariant: every record carries the identifier
assigned at creation (`id or str(uuid.uuid4())` never yields `""`), and an
empty `id` would be regenerated by `Book.__init__` on load. -/
theorem save_load_roundtrip (gen : Nat → String) (books : List Book)
    (h : ∀ b ∈ books, b.id ≠ "") :
    load_books gen (save_books books) = Except.ok books := by
  simp [load_books, save_books, loadRows_rowOfBook gen books h]

theorem save_load_roundtrip_witness :
    load_books (fun _ => "g")
      (save_books [⟨"i1", "t1", "a1", 2001, "в наличии"⟩,
                   ⟨"i2", "t2", "a2", 2002, "выдана"⟩])
    = Except.ok [⟨"i1", "t1", "a1", 2001, "в наличии"⟩,
                 ⟨"i2", "t2", "a2", 2002, "выдана"⟩] :=
  save_load_roundtrip (fun _ => "g") _ (by decide)

/-! ### Claims about Remove -/

theorem removeScan_eq_none (book_id : String) (l : List Book)
    (h : ∀ b ∈ l, b.id ≠ book_id) : removeScan book_id l = none := by
  induction l with
  | nil => rfl
  | cons b bs ih =>
    have hb : b.id ≠ book_id := h b (by simp)
    have ht := ih (fun x hx => h x (by simp [hx]))
    simp [removeScan, hb, ht]

theorem removeScan_first (book_id : String) (b : Book) (l₂ : List Book) :
    ∀ l₁ : List Book, b.id = book_id → (∀ x ∈ l₁, x.id ≠ book_id) →
      removeScan book_id (l₁ ++ b :: l₂) = some (l₁ ++ l₂) := by
  intro l₁
  induction l₁ with
  | nil =>
    intro hb _
    simp [removeScan, hb]
  | cons x xs ih =>
    intro hb hl
    have hx : x.id ≠ book_id := hl x (by simp)
    have ht := ih hb (fun y hy => hl y (by simp [hy]))
    simp [removeScan, hx, ht]

/-- Claim C3: when the first record with the given id sits between a prefix
of non-matching records and a suffix, `remove_book` deletes exactly that
record (prefix and suffix kept in order), saves the shrunk list, reports
success, and the size drops by exactly one; when no record matches,
`remove_book` returns the state unchanged — list and store both — and
reports "not found". -/
theorem remove_book_spec (book_id : String) (s : LibState) :
    ((∀ b ∈ s.books, b.id ≠ book_id) →
      remove_book book_id s = (s, Outcome.removeNotFound book_id))
    ∧ (∀ (l₁ : List Book) (b : Book) (l₂ : List Book),
        s.books = l₁ ++ b :: l₂ → b.id = book_id →
        (∀ x ∈ l₁, x.id ≠ book_id) →
        (remove_book book_id s).1.books = l₁ ++ l₂
        ∧ (remove_book book_id s).1.store = save_books (l₁ ++ l₂)
        ∧ (remove_book book_id s).2 = Outcome.removed book_id
        ∧ (remove_book book_id s).1.books.length + 1 = s.books.length) := by
  constructor
  · intro h
    simp [remove_book, removeScan_eq_none book_id s.books h]
  · intro l₁ b l₂ hs hb hl
    have hscan : removeScan book_id (l₁ ++ b :: l₂) = some (l₁ ++ l₂) :=
      removeScan_first book_id b l₂ l₁ hb hl
    refine ⟨?_, ?_, ?_, ?_⟩
    all_goals simp [remove_book, hs, hscan, List.length_append]
    all_goals omega

theorem remove_book_spec_witness :
    remove_book "x" ⟨[⟨"a", "t", "au", 2000, "в наличии"⟩], JsonFile.missing⟩
      = (⟨[⟨"a", "t", "au", 2000, "в наличии"⟩], JsonFile.missing⟩,
         Outcome.removeNotFound "x")
    ∧ (remove_book "b"
        ⟨[⟨"a", "t", "au", 2000, "в наличии"⟩,
          ⟨"b", "u", "av", 2001, "выдана"⟩], JsonFile.missing⟩).1.books
      = [⟨"a", "t", "au", 2000, "в наличии"⟩] :=
  ⟨(remove_book_spec "x" ⟨[⟨"a", "t", "au", 2000, "в наличии"⟩],
      JsonFile.missing⟩).1 (by decide),
   ((remove_book_spec "b"
      ⟨[⟨"a", "t", "au", 2000, "в наличии"⟩,
        ⟨"b", "u", "av", 2001, "выдана"⟩], JsonFile.missing⟩).2
      [⟨"a", "t", "au", 2000, "в наличии"⟩] ⟨"b", "u", "av", 2001, "выдана"⟩ []
      (by decide) (by decide) (by decide)).1⟩

/-! ### Claims about UpdateStatus -/

/-- Claim C6: `update_status` validates the identifier format first — a
string that does not parse as a UUID yields the "invalid id format" outcome
with the state (book list and store) untouched, regardless of the status
argument — and then the status value: with a parseable id and a status
outside the allowed pair it yields the "invalid status" outcome, again with
the state untouched. -/
theorem update_status_validation (book_id : String) (newStatus : String)
    (s : LibState) :
    (parseUUID book_id = none →
      update_status book_id newStatus s = (s, Outcome.invalidIdFormat))
    ∧ (parseUUID book_id ≠ none → newStatus ≠ "в наличии" →
        newStatus ≠ "выдана" →
        update_status book_id newStatus s = (s, Outcome.invalidStatus)) := by
  constructor
  · intro h
    simp [update_status, h]
  · intro hp h1 h2
    cases hu : parseUUID book_id with
    | none => exact absurd hu hp
    | some u => simp [update_status, hu, h1, h2]

theorem update_status_validation_witness :
    update_status "zz" "выдана" ⟨[], JsonFile.missing⟩
      = (⟨[], JsonFile.missing⟩, Outcome.invalidIdFormat)
    ∧ update_status "1274d8e0-3b49-41eb-b3f6-1ee5fd38aae1" "lost"
        ⟨[], JsonFile.missing⟩
      = (⟨[], JsonFile.missing⟩, Outcome.invalidStatus) :=
  ⟨(update_status_validation "zz" "выдана" ⟨[], JsonFile.missing⟩).1
     (by decide),
   (update_status_validation "1274d8e0-3b49-41eb-b3f6-1ee5fd38aae1" "lost"
     ⟨[], JsonFile.missing⟩).2 (by decide) (by decide) (by decide)⟩

/-! ### Claims about Add -/

/-- Claim C7 (counterexample): adding a book to a catalog that already holds
a record matched by the new title ("a" is a case-insensitive substring of
the existing title "aa") makes the subsequent `find_book` on the title
return two records, not exactly one. -/
theorem add_then_find_not_exactly_one :
    ¬ ((find_book "a"
        ((add_book "id2" "a" "x" 1
          ⟨[⟨"id1", "aa", "x", 1, "в наличии"⟩],
           save_books [⟨"id1", "aa", "x", 1, "в наличии"⟩]⟩).1.books)).1.length
      = 1) := by
  decide

/-- Claim C7 (amended): provided the freshly generated identifier is
non-empty and distinct from every existing id, and no existing record is
matched by the title as a `find_book` query, `add_book` appends the new
record with default status "в наличии" to the end of the list, saves the
grown list, reports success, and a subsequent `find_book` on the title
returns exactly that one record. -/
theorem add_book_spec (fresh : String) (title : String) (author : String)
    (year : Int) (s : LibState)
    (hmatch : ∀ b ∈ s.books, matchesQuery title b = false)
    (hfresh : fresh ≠ "") (huniq : ∀ b ∈ s.books, b.id ≠ fresh) :
    (add_book fresh title author year s).1.books
      = s.books ++ [⟨fresh, title, author, year, "в наличии"⟩]
    ∧ (add_book fresh title author year s).1.store
      = save_books (s.books ++ [⟨fresh, title, author, year, "в наличии"⟩])
    ∧ (add_book fresh title author year s).2 = Outcome.added title
    ∧ (find_book title (add_book fresh title author year s).1.books).1
      = [⟨fresh, title, author, year, "в наличии"⟩]
    ∧ (⟨fresh, title, author, year, "в наличии"⟩ : Book).id ≠ ""
    ∧ (∀ b ∈ s.books, b.id ≠ (⟨fresh, title, author, year, "в наличии"⟩ : Book).id) := by
  have hold : s.books.filter (fun b => matchesQuery title b) = [] :=
    List.filter_eq_nil_iff.mpr
      (fun b hb => by simp [hmatch b hb])
  have hnew : matchesQuery title (⟨fresh, title, author, year, "в наличии"⟩ : Book) = true :=
    matchesQuery_title _ title rfl
  refine ⟨by simp [add_book, mkBook], by simp [add_book, mkBook], rfl, ?_,
    hfresh, huniq⟩
  rw [find_book_fst]
  simp [add_book, mkBook, List.filter_append, hold, hnew]

theorem add_book_spec_witness :
    (find_book "t"
      ((add_book "u1" "t" "a" 2000 ⟨[], JsonFile.missing⟩).1.books)).1
    = [⟨"u1", "t", "a", 2000, "в наличии"⟩] :=
  (add_book_spec "u1" "t" "a" 2000 ⟨[], JsonFile.missing⟩
    (by decide) (by decide) (by decide)).2.2.2.1

/-! ### Claims about Record construction -/

/-- Claim C8 (counterexample): a record constructed with the explicitly
supplied id `""` does not keep that string — `id or str(uuid.uuid4())`
treats the empty string as falsy and substitutes the freshly generated
identifier (here `"f8"`). -/
theorem mkBook_empty_id_regenerates :
    ¬ ((mkBook "f8" "t" "a" 2000 (some "") none).id = "") := by
  decide

/-- Claim C8 (amended): an explicitly supplied non-empty id string is
accepted verbatim as the record's id; a missing id, and likewise the
explicitly supplied empty string (the one falsy `str`), trigger generation
of a fresh identifier. -/
theorem mkBook_id_spec (fresh : String) (title : String) (author : String)
    (year : Int) (st : Option String) (id : String) :
    (id ≠ "" → (mkBook fresh title author year (some id) st).id = id)
    ∧ (mkBook fresh title author year none st).id = fresh
    ∧ (mkBook fresh title author year (some "") st).id = fresh := by
  refine ⟨fun h => ?_, rfl, rfl⟩
  simp [mkBook, h]

theorem mkBook_id_spec_witness :
    (mkBook "f0" "t" "a" 2000 (some "keep-me") none).id = "keep-me" :=
  (mkBook_id_spec "f0" "t" "a" 2000 none "keep-me").1 (by decide)

/-! ### Store write discipline and the update-status comparison -/

theorem updateScan_eq_none (u : Nat) (newStatus : String) (l : List Book) :
    updateScan u newStatus l = none := by
  induction l with
  | nil => rfl
  | cons b bs ih => simp [updateScan, strEqUUID, ih]

/-- Claim C10: constructing a `Library` only reads the store — on a
successful construction the store is exactly the one passed in; and the
store is written only by the mutating operations: a `remove_book` that
finds no match leaves the store untouched, and `update_status` leaves the
store untouched whenever its scan reaches no matching record (with the
source's `str`-versus-`UUID` comparison the scan in fact never matches, so
`update_status` never writes at all, which still satisfies the "written
only by" claim). -/
theorem store_write_discipline :
    (∀ (gen : Nat → String) (store : JsonFile) (st : LibState),
      libraryInit gen store = Except.ok st → st.store = store)
    ∧ (∀ (book_id : String) (s : LibState),
        (∀ b ∈ s.books, b.id ≠ book_id) →
        (remove_book book_id s).1.store = s.store)
    ∧ (∀ (book_id : String) (newStatus : String) (s : LibState),
        (update_status book_id newStatus s).1.store = s.store) := by
  refine ⟨?_, ?_, ?_⟩
  · intro gen store st h
    unfold libraryInit at h
    cases hl : load_books gen store with
    | ok bs =>
      rw [hl] at h
      cases h
      rfl
    | error e =>
      rw [hl] at h
      cases h
  · intro book_id s h
    simp [remove_book, removeScan_eq_none book_id s.books h]
  · intro book_id newStatus s
    cases hp : parseUUID book_id with
    | none => simp [update_status, hp]
    | some u =>
      by_cases hst : newStatus = "в наличии" ∨ newStatus = "выдана"
      · simp [update_status, hp, hst, updateScan_eq_none]
      · simp [update_status, hp, hst]

theorem store_write_discipline_witness :
    (⟨[], JsonFile.missing⟩ : LibState).store = JsonFile.missing
    ∧ (remove_book "q" ⟨[], JsonFile.invalid⟩).1.store = JsonFile.invalid :=
  ⟨store_write_discipline.1 (fun _ => "") JsonFile.missing
      ⟨[], JsonFile.missing⟩ rfl,
   store_write_discipline.2.1 "q" ⟨[], JsonFile.invalid⟩ (by decide)⟩

/-- Claim C1: evaluation at the failing input.  The catalog holds exactly
one record whose id is the well-formed identifier
"1274d8e0-3b49-41eb-b3f6-1ee5fd38aae1", and `update_status` is called with
that very id and the allowed status "выдана"; yet the loop's comparison
`book.id == book_id_uuid` (a `str` against a `uuid.UUID`) is `False`, so
the call reports "not found" and leaves the record, the list and the store
unchanged instead of setting the status and saving. -/
theorem update_status_type_confusion_eval :
    update_status "1274d8e0-3b49-41eb-b3f6-1ee5fd38aae1" "выдана"
      ⟨[⟨"1274d8e0-3b49-41eb-b3f6-1ee5fd38aae1", "Анна Каренина",
         "Лев Толстой", 1877, "в наличии"⟩],
       save_books [⟨"1274d8e0-3b49-41eb-b3f6-1ee5fd38aae1", "Анна Каренина",
         "Лев Толстой", 1877, "в наличии"⟩]⟩
    = (⟨[⟨"1274d8e0-3b49-41eb-b3f6-1ee5fd38aae1", "Анна Каренина",
          "Лев Толстой", 1877, "в наличии"⟩],
        save_books [⟨"1274d8e0-3b49-41eb-b3f6-1ee5fd38aae1", "Анна Каренина",
          "Лев Толстой", 1877, "в наличии"⟩]⟩,
       Outcome.updateNotFound) := by
  decide
